import Mathlib

/-!
# Verification of the quiz-api document/quiz pipeline

Shallow embedding of the core request handlers of the repository
(`app/routers/documents.py`, `app/routers/quizzes.py`, data model in
`app/models.py`) over explicit database states, together with theorems
settling the specification claims about them.

External collaborators (PostgreSQL full-text search, the OpenAI
generation service, file-content extraction, `uuid4` draws, the clock)
are modelled as explicit inputs, following the specification's scoping:
the database's answer to a ranked search query is passed in as the
matched, ordered row list; the generation service's reply (after the
handler's `eval` of the raw text) is passed in as an already-parsed
value or a parse failure.  A handler that raises never commits its
session, so an erroring call returns no state: persistence is
all-or-nothing exactly as in the source's transactional session.
-/

namespace QuizApi

/-- Raise sites of the embedded handlers.  Each constructor corresponds to
one way a request terminates abnormally: either an `HTTPException` the
source raises deliberately, or an uncaught Python exception (which the
framework surfaces as an HTTP 500). -/
inductive Err
  /-- 400 "One or more file IDs are invalid." (`create_quiz`). -/
  | invalidFileIds
  /-- 500 "OpenAI error: ..." — the `except` branch around `create_quiz`'s
  call to the generation service; the same `try` block contains the `eval`
  of the reply, so parse failures are caught here too.  This raise site is
  the spec's `GenerationServiceError`. -/
  | openaiError
  /-- 500 "Invalid response from OpenAI." — the shape/count validation of
  the parsed reply in `create_quiz`.  This raise site is the spec's
  `MalformedGenerationOutput`. -/
  | invalidResponse
  /-- 404 "Quiz not found". -/
  | quizNotFound
  /-- 400 "Some questions do not belong to this quiz" (`submit_quiz`);
  the spec's `InvalidArgument` for mismatched id sets. -/
  | questionsMismatch
  /-- Uncaught `StopIteration` from `next(...)` in `submit_quiz`. -/
  | stopIteration
  /-- Uncaught `ZeroDivisionError`. -/
  | zeroDivisionError
  /-- 400 "Invalid sort parameter" (`search_files`). -/
  | invalidSort
  /-- Uncaught `KeyError` from `mime_map[...]` in `search_files`. -/
  | keyError
  /-- The database rejects the statement (PostgreSQL refuses a negative
  `LIMIT` or `OFFSET`), an uncaught error. -/
  | dbError
  /-- 400 "Unsupported file type" (`upload_file`). -/
  | unsupportedFileType
  /-- Uncaught `ValueError` from `int(...)` in `upload_file`. -/
  | valueError
  deriving Repr, DecidableEq

/-! ## Data model (`app/models.py`)

Timestamp columns (`created_at`, filled by the database clock) and the
integer surrogate key of `documents` appear in no handler logic settled
here and are omitted; `search_vector` is computed by PostgreSQL
`to_tsvector` and only ever consumed by PostgreSQL again, so it lives on
the database side of the boundary (inside the `dbRows` oracle below). -/

/-- Row of `documents`. -/
structure Document where
  file_id : String
  name : String
  file_type : String
  content : Option String
  deriving Repr, DecidableEq

/-- Row of `quizzes`. -/
structure Quiz where
  quiz_id : String
  name : String
  difficulty : String
  topic : String
  number_of_questions : Int
  question_type : String
  custom_instructions : String
  deriving Repr, DecidableEq

/-- Row of `questions`.  `options` is the JSON-serialized string stored
by `json.dumps` in `create_quiz`. -/
structure Question where
  question_id : String
  quiz_id : String
  question : String
  options : String
  correct_answer : String
  deriving Repr, DecidableEq

/-- Row of `quiz_submissions`. -/
structure Submission where
  submission_id : String
  quiz_id : String
  user_id : String
  question_id : String
  selected_answer : String
  is_correct : Bool
  deriving Repr, DecidableEq

/-- The visible database state: the four tables as row lists in insertion
order. -/
structure DBState where
  documents : List Document
  quizzes : List Quiz
  questions : List Question
  submissions : List Submission
  deriving Repr, DecidableEq

/-! ## Models of the Python library functions used by the handlers -/

/-- Model of Python `str.zfill width`: left-pad with `'0'` up to `width`
(the sign handling of `zfill` never triggers, the argument is always a
digit string here). -/
def zfill (width : Nat) (s : String) : String :=
  if width ≤ s.length then s
  else String.mk (List.replicate (width - s.length) '0') ++ s

/-- Decimal digit character for `d < 10`. -/
def digitChar (d : Nat) : Char := Char.ofNat (48 + d)

/-- Decimal digit list of a natural number, most significant first, no
leading zeros. -/
def natDigits (n : Nat) : List Char :=
  if _h : n < 10 then [digitChar n]
  else natDigits (n / 10) ++ [digitChar (n % 10)]
decreasing_by exact Nat.div_lt_self (by omega) (by omega)

/-- Model of Python `str` on a nonnegative integer. -/
def pyStr (n : Nat) : String := String.mk (natDigits n)

/-- One step of decimal accumulation. -/
def digitStep (n : Nat) (c : Char) : Nat := 10 * n + (c.toNat - 48)

/-- Model of Python `int` on a string: the value of a nonempty all-digit
string, `none` (an uncaught `ValueError`) otherwise.  (Python `int` also
accepts signs and surrounding whitespace; no caller here produces
those.) -/
def pyInt? (s : String) : Option Nat :=
  if s.data ≠ [] ∧ s.data.all Char.isDigit then some (s.data.foldl digitStep 0)
  else none

/-- Model of Python `s.replace("file", "")` on the character list: delete
every non-overlapping occurrence of `"file"`, scanning left to right. -/
def dropFileRuns : List Char → List Char
  | 'f' :: 'i' :: 'l' :: 'e' :: rest => dropFileRuns rest
  | c :: rest => c :: dropFileRuns rest
  | [] => []

/-- Model of Python `s.replace("file", "")`. -/
def pyReplaceFile (s : String) : String := String.mk (dropFileRuns s.data)

/-- Splitting on `','`, accumulating the current piece in reverse. -/
def splitCommaAux : List Char → List Char → List String
  | [], acc => [String.mk acc.reverse]
  | c :: rest, acc =>
    if c = ',' then String.mk acc.reverse :: splitCommaAux rest []
    else splitCommaAux rest (c :: acc)

/-- Model of Python `s.split(",")`: split at every comma; the empty
string yields `[""]`. -/
def pySplitComma (s : String) : List String := splitCommaAux s.data []

/-- Model of Python `s.strip()`: drop whitespace from both ends. -/
def pyStrip (s : String) : String :=
  String.mk
    (((s.data.dropWhile Char.isWhitespace).reverse.dropWhile
        Char.isWhitespace).reverse)

/-- Escaping for `json.dumps` (backslash and double quote; the escapes for
control and non-ASCII characters never trigger on the inputs used
here). -/
def jsonEscape (s : String) : String :=
  String.mk (s.data.foldr
    (fun c acc => if c = '\\' ∨ c = '\"' then '\\' :: c :: acc else c :: acc) [])

/-- Model of `json.dumps` on a list of strings (default separators). -/
def jsonDumps (options : List String) : String :=
  "[" ++ String.intercalate ", "
    (options.map (fun o => "\"" ++ jsonEscape o ++ "\"")) ++ "]"

/-- Round to nearest integer, ties to even. -/
def roundHalfEven (q : ℚ) : ℤ :=
  let f := ⌊q⌋
  if q - f < 1/2 then f
  else if q - f > 1/2 then f + 1
  else if f % 2 = 0 then f else f + 1

/-- Model of Python `round(x, 2)`: the embedding computes with exact
rationals where the source computes with binary floating point. -/
def pyRound2 (q : ℚ) : ℚ := (roundHalfEven (q * 100) : ℚ) / 100

/-! ## Document index (`app/routers/documents.py`) -/

/-- `allowed_types` of `upload_file` (`documents.py` line 30). -/
def allowed_types : List String :=
  ["text/plain", "application/pdf",
   "application/vnd.openxmlformats-officedocument.wordprocessingml.document"]

/-- The list comprehension
`[int(file_id.replace("file", "")) for file_id, in query.fetchall()]`:
parse every suffix left to right, `none` when some `int(...)` raises. -/
def parseSuffixes : List String → Option (List Nat)
  | [] => some []
  | fid :: rest =>
    match pyInt? (pyReplaceFile fid) with
    | none => none
    | some k => (parseSuffixes rest).map (k :: ·)

/-- The identifier-allocation step of `upload_file` (`documents.py` lines
54–58): parse the numeric suffix of every existing `file_id` (the query
selects the `file_id` column), take the maximum (`default=0`), add one
and left-pad to three digits.  `none` is the uncaught `ValueError` when
some stored id has a non-numeric suffix. -/
def upload_allocate (docs : List Document) : Option String :=
  match parseSuffixes (docs.map (fun d => d.file_id)) with
  | none => none
  | some existing_ids =>
    some ("file" ++ zfill 3 (pyStr (existing_ids.foldl max 0 + 1)))

/-- `upload_file` (`documents.py` lines 17–80) after form parsing: the
extracted text is an input (extraction per MIME type is an external
adapter), and the temp-file bookkeeping and `to_tsvector` computation
have no bearing on the rows modelled here. -/
def upload_file (st : DBState) (filename content_type : String)
    (extracted_content : Option String) : Except Err (DBState × String) :=
  if ¬ allowed_types.contains content_type then .error .unsupportedFileType
  else
    match upload_allocate st.documents with
    | none => .error .valueError
    | some custom_file_id =>
      let new_document : Document :=
        { file_id := custom_file_id, name := filename,
          file_type := content_type, content := extracted_content }
      .ok ({ st with documents := st.documents ++ [new_document] },
           custom_file_id)

/-- The alias → MIME map of `search_files` (`documents.py` lines 129–133)
as a partial lookup: `none` is a Python `KeyError`. -/
def mime_map (ext : String) : Option String :=
  if ext = "txt" then some "text/plain"
  else if ext = "pdf" then some "application/pdf"
  else if ext = "docx" then
    some "application/vnd.openxmlformats-officedocument.wordprocessingml.document"
  else none

/-- A row of `search_files`' ranked SQL query: `file_id, name, file_type,
ts_rank(...) AS relevance`. -/
structure SearchRow where
  file_id : String
  name : String
  file_type : String
  relevance : ℚ
  deriving Repr, DecidableEq

/-- The response envelope of `search_files` (fields echoing the raw
request inputs verbatim are left out). -/
structure SearchResponse where
  results : List SearchRow
  current_page : Int
  total_results : Int
  total_pages : Int
  limit : Int
  file_types : List String
  deriving Repr, DecidableEq

/-- `search_files` (`documents.py` lines 112–197).  PostgreSQL evaluates
the `to_tsquery` match, the `ts_rank`-or-name ordering and the window;
the embedding takes the matched, ordered row list (before `LIMIT` and
`OFFSET`) as a function `dbRows` of the computed `file_types` filter —
the count query runs the same `WHERE` clause, so it counts the same
list — and applies the window itself, with PostgreSQL's rejection of a
negative `LIMIT`/`OFFSET` made explicit.  Note the source validates
`sort` but never `page` or `limit`. -/
def search_files (dbRows : List String → List SearchRow) (_q : String)
    (page limit : Int) (sort : String) (type? : Option String) :
    Except Err SearchResponse :=
  if ¬ (sort = "relevance" ∨ sort = "name") then .error .invalidSort
  else
    let offset := (page - 1) * limit
    -- `[mime_map[t.strip()] for t in type.split(",")] if type else []`
    let fts? : Option (List String) :=
      match type? with
      | none => some []
      | some t =>
        if t = "" then some []
        else (pySplitComma t).mapM (fun s => mime_map (pyStrip s))
    match fts? with
    | none => .error .keyError
    | some file_types =>
      if limit < 0 ∨ offset < 0 then .error .dbError
      else
        let rows := dbRows file_types
        let paged := (rows.drop offset.toNat).take limit.toNat
        let total_results : Int := rows.length
        -- `total_pages = (total // limit) + (1 if total % limit > 0 else 0)`
        if limit = 0 then .error .zeroDivisionError
        else
          let total_pages := total_results.fdiv limit +
            (if total_results.fmod limit > 0 then 1 else 0)
          .ok { results := paged, current_page := page,
                total_results := total_results, total_pages := total_pages,
                limit := limit, file_types := file_types }

/-! ## Quiz generator and grading engine (`app/routers/quizzes.py`) -/

/-- The input schema of `create_quiz`. -/
structure QuizCreateRequest where
  name : String
  difficulty : String
  topic : String
  file_ids : List String
  number_of_questions : Int
  question_type : String
  custom_instructions : String
  deriving Repr, DecidableEq

/-- A member of the array produced by `eval` on the generation service's
reply, when it is an array of objects carrying the required fields.  (The
`question_id` the service emits is read nowhere by the handler.) -/
structure GeneratedQuestion where
  question_id : String
  question : String
  options : List String
  correct_answer : String
  deriving Repr, DecidableEq

/-- The parsed value of the generation reply: an array of question
objects, or any non-array value (rejected by the `isinstance` check). -/
inductive GenValue
  | arr (qs : List GeneratedQuestion)
  | notArr
  deriving Repr, DecidableEq

/-- `create_quiz` (`quizzes.py` lines 31–141).  The exchange with the
generation service and the `eval` of its raw reply happen inside one
`try` block: `gen` is its outcome, `.error ()` meaning the service call
or the `eval` raised.  `quiz_id` is the externally drawn `uuid4`.  After
the length check the handler stages the quiz row and one question row
per parsed entry — copying `correct_answer` over unexamined — and
commits them in one transaction. -/
def create_quiz (st : DBState) (payload : QuizCreateRequest)
    (gen : Except Unit GenValue) (quiz_id : String) :
    Except Err (DBState × String) :=
  let documents := st.documents.filter
    (fun d => payload.file_ids.contains d.file_id)
  if documents.isEmpty ∨ documents.length ≠ payload.file_ids.length then
    .error .invalidFileIds
  else
    -- `combined_content` feeds only the prompt sent to the external
    -- service (a Python falsy test: `None` and `""` are both skipped)
    let _combined_content := String.intercalate "\n\n"
      ((documents.filterMap (·.content)).filter (fun c => c ≠ ""))
    match gen with
    | .error _ => .error .openaiError
    | .ok .notArr => .error .invalidResponse
    | .ok (.arr generated_questions) =>
      if (generated_questions.length : Int) ≠ payload.number_of_questions then
        .error .invalidResponse
      else
        let new_quiz : Quiz :=
          { quiz_id := quiz_id, name := payload.name,
            difficulty := payload.difficulty, topic := payload.topic,
            number_of_questions := payload.number_of_questions,
            question_type := payload.question_type,
            custom_instructions := payload.custom_instructions }
        let new_questions := generated_questions.enum.map
          (fun (i, question) =>
            { question_id := quiz_id ++ "_q" ++ pyStr (i + 1),
              quiz_id := quiz_id,
              question := question.question,
              options := jsonDumps question.options,
              correct_answer := question.correct_answer : Question })
        .ok ({ st with quizzes := st.quizzes ++ [new_quiz],
                       questions := st.questions ++ new_questions },
             quiz_id)

/-- The per-question slice of `get_quiz`'s response: id, text and
options. -/
structure QuestionView where
  question_id : String
  question : String
  options : String
  deriving Repr, DecidableEq

/-- The `data` object of `get_quiz`'s response. -/
structure QuizView where
  quiz_id : String
  name : String
  difficulty : String
  topic : String
  number_of_questions : Int
  question_type : String
  custom_instructions : String
  questions : List QuestionView
  deriving Repr, DecidableEq

/-- `get_quiz` (`quizzes.py` lines 143–179): look the quiz up, collect its
questions, and expose each question's id, text and options —
`correct_answer` is copied into no response field. -/
def get_quiz (st : DBState) (quiz_id : String) : Except Err QuizView :=
  match st.quizzes.find? (fun qz => qz.quiz_id == quiz_id) with
  | none => .error .quizNotFound
  | some quiz =>
    let questions := st.questions.filter (fun q => q.quiz_id == quiz_id)
    .ok { quiz_id := quiz.quiz_id, name := quiz.name,
          difficulty := quiz.difficulty, topic := quiz.topic,
          number_of_questions := quiz.number_of_questions,
          question_type := quiz.question_type,
          custom_instructions := quiz.custom_instructions,
          questions := questions.map (fun question =>
            { question_id := question.question_id,
              question := question.question,
              options := question.options }) }

/-- One member of `SubmitQuizRequest.answers` (the handler reads exactly
the keys `question_id` and `selected_answer`). -/
structure AnswerItem where
  question_id : String
  selected_answer : String
  deriving Repr, DecidableEq

/-- The response of `submit_quiz`. -/
structure SubmitResult where
  quiz_id : String
  score : Nat
  total_questions : Nat
  percentage : ℚ
  deriving Repr, DecidableEq

/-- The per-answer lookup of `submit_quiz`'s loop:
`next(q for q in questions if q.question_id == answer["question_id"])`,
left to right, `none` when some `next` raises `StopIteration`. -/
def resolveAnswers (questions : List Question) :
    List AnswerItem → Option (List (AnswerItem × Question))
  | [] => some []
  | answer :: rest =>
    match questions.find? (fun q => q.question_id == answer.question_id) with
    | none => none
    | some q => (resolveAnswers questions rest).map ((answer, q) :: ·)

/-- The `Submission` rows `submit_quiz`'s loop appends, one per resolved
answer in order; `i` counts the `uuid4` draws. -/
def buildSubmissions (quiz_id user_id : String)
    (submission_ids : Nat → String) :
    Nat → List (AnswerItem × Question) → List Submission
  | _, [] => []
  | i, (answer, q) :: rest =>
    { submission_id := submission_ids i, quiz_id := quiz_id,
      user_id := user_id, question_id := answer.question_id,
      selected_answer := answer.selected_answer,
      is_correct := q.correct_answer == answer.selected_answer } ::
    buildSubmissions quiz_id user_id submission_ids (i + 1) rest

/-- `submit_quiz` (`quizzes.py` lines 239–294).  `user_id` is the
externally drawn `uuid4` stand-in for authentication, `submission_ids`
the per-row `uuid4` draws.  The handler commits the batch *before*
computing `percentage`; on an empty answer list the committed batch is
empty and the response computation then raises `ZeroDivisionError`
(`score / total_questions` with `total_questions = 0`), so the erroring
return still carries no persisted rows. -/
def submit_quiz (st : DBState) (quiz_id : String) (answers : List AnswerItem)
    (user_id : String) (submission_ids : Nat → String) :
    Except Err (DBState × SubmitResult) :=
  match st.quizzes.find? (fun qz => qz.quiz_id == quiz_id) with
  | none => .error .quizNotFound
  | some _ =>
    let question_ids := answers.map (·.question_id)
    let questions := st.questions.filter
      (fun q => q.quiz_id == quiz_id && question_ids.contains q.question_id)
    if questions.length ≠ answers.length then .error .questionsMismatch
    else
      match resolveAnswers questions answers with
      | none => .error .stopIteration
      | some resolved =>
        let score := (resolved.filter
          (fun p => p.2.correct_answer == p.1.selected_answer)).length
        let total_questions := answers.length
        let submissions :=
          buildSubmissions quiz_id user_id submission_ids 0 resolved
        let st' := { st with submissions := st.submissions ++ submissions }
        if total_questions = 0 then .error .zeroDivisionError
        else
          .ok (st', { quiz_id := quiz_id, score := score,
                      total_questions := total_questions,
                      percentage :=
                        pyRound2 ((score : ℚ) / total_questions * 100) })

/-! ## Concrete fixtures used by the claim theorems and witnesses -/

/-- A single ingested plain-text document. -/
def docA : Document :=
  { file_id := "file001", name := "a.txt", file_type := "text/plain",
    content := some "SEO means search engine optimization" }

/-- Database state holding exactly `docA`. -/
def stOneDoc : DBState :=
  { documents := [docA], quizzes := [], questions := [], submissions := [] }

/-- A `create_quiz` payload over `docA` requesting `n` mcq questions. -/
def quizReq (n : Int) : QuizCreateRequest :=
  { name := "Quiz", difficulty := "easy", topic := "SEO",
    file_ids := ["file001"], number_of_questions := n,
    question_type := "mcq", custom_instructions := "" }

/-- A parsed generation entry whose `correct_answer` is verbatim equal to
none of its four options. -/
def badEntry : GeneratedQuestion :=
  { question_id := "q1", question := "What is SEO?",
    options := ["A. Search Engine Optimization", "B. Search Engine Operation",
                "C. Software Engineering Optimization", "D. None of the above"],
    correct_answer := "E" }

/-- The quiz row `create_quiz` builds from `quizReq 1` under id `"qz1"`. -/
def quizRow1 : Quiz :=
  { quiz_id := "qz1", name := "Quiz", difficulty := "easy", topic := "SEO",
    number_of_questions := 1, question_type := "mcq",
    custom_instructions := "" }

/-- A database state with one quiz `"qz1"` and no questions, for the
empty-submission scenario. -/
def stQuizOnly : DBState :=
  { documents := [], quizzes := [quizRow1], questions := [], submissions := [] }

/-! ## Claim theorems -/

/-- **C1** (code bug).  The claim says an entry whose `correct_answer` is
not verbatim one of its `options` makes `create_quiz` fail with
`MalformedGenerationOutput` before anything is persisted.  The source has
no per-question validation at all (`quizzes.py` lines 106–133 check only
`isinstance(..., list)` and the length): at the failing input — one
requested question, generation entry `badEntry` with `correct_answer`
`"E"` and options A–D — the call succeeds and persists the quiz row and a
question row whose `correct_answer` is `"E"`, an answer no option
carries. -/
theorem create_quiz_skips_correct_answer_validation :
    create_quiz stOneDoc (quizReq 1) (.ok (.arr [badEntry])) "qz1" =
      .ok ({ stOneDoc with
             quizzes := [quizRow1],
             questions := [{ question_id := "qz1" ++ "_q" ++ pyStr 1,
                             quiz_id := "qz1",
                             question := "What is SEO?",
                             options := jsonDumps badEntry.options,
                             correct_answer := "E" }] }, "qz1") ∧
    badEntry.options.contains "E" = false := by
  constructor
  · rfl
  · rfl

/-- **C2** (code bug).  The claim (and the spec's division-by-zero
policy) says a submit call with an empty answer list fails with
`InvalidArgument`.  The source has no such check: with `answers = []` on
an existing quiz every validation passes vacuously, the empty batch is
committed, and the response computation `round((score / total_questions)
* 100, 2)` raises an uncaught `ZeroDivisionError` (HTTP 500). -/
theorem submit_quiz_empty_answers_zero_division :
    submit_quiz stQuizOnly "qz1" [] "user1" (fun _ => "sub") =
      .error .zeroDivisionError := by
  rfl

/-- **C4** (code bug).  The claim says `search_files` rejects
`page < 1` or `limit < 1` with `InvalidArgument` rather than executing
the query.  The source validates only `sort` (`documents.py` line 122):
with `limit = 0` the query executes (`LIMIT 0`) and the subsequent
`total_results // limit` raises an uncaught `ZeroDivisionError`; with
`page = 0` the query is executed with `OFFSET -10`, which the database
rejects — in both cases an HTTP 500, not the claimed 400. -/
theorem search_files_accepts_nonpositive_page_limit :
    search_files (fun _ => []) "seo" 1 0 "relevance" none =
      .error .zeroDivisionError ∧
    search_files (fun _ => []) "seo" 0 10 "relevance" none =
      .error .dbError := by
  constructor
  · rfl
  · rfl

/-- **C5** (code bug).  The recognized aliases do map to the three fixed
MIME strings, but an unrecognized alias does not fail with
`InvalidArgument`: `mime_map[file_type.strip()]` raises an uncaught
`KeyError` (HTTP 500) at e.g. `type = "jpg"`. -/
theorem search_files_unknown_alias_key_error :
    search_files (fun _ => []) "seo" 1 10 "relevance" (some "txt, pdf,docx") =
      .ok { results := [], current_page := 1, total_results := 0,
            total_pages := 0, limit := 10,
            file_types := ["text/plain", "application/pdf",
              "application/vnd.openxmlformats-officedocument.wordprocessingml.document"] } ∧
    search_files (fun _ => []) "seo" 1 10 "relevance" (some "jpg") =
      .error .keyError := by
  constructor
  · rfl
  · rfl

/-- **C3** (counterexample).  The claim says an unparsable generation
reply fails with `MalformedGenerationOutput` (the raise site with detail
"Invalid response from OpenAI.").  It does not: the `eval` of the reply
sits inside the same `try` as the service call, so a parse failure is
caught by the generic handler and surfaces as the service error
("OpenAI error: ...", the spec's `GenerationServiceError`). -/
theorem create_quiz_parse_failure_not_malformed_output :
    create_quiz stOneDoc (quizReq 3) (.error ()) "qz1" ≠
      .error .invalidResponse := by
  intro h
  exact absurd (Except.error.inj h) (by decide)

/-- **C3** (amended).  Whenever the file-id validation passes: a reply
that fails to parse surfaces as the generation-service error
(`openaiError`); a reply that parses to a non-array, or to an array whose
length differs from the requested question count, fails with the
malformed-output error (`invalidResponse`); in every one of these cases
the call returns no state, so no Quiz or Question row is persisted
(all-or-nothing). -/
theorem create_quiz_generation_validation (st : DBState)
    (payload : QuizCreateRequest) (qid : String)
    (hfiles : ¬((st.documents.filter
        (fun d => payload.file_ids.contains d.file_id)).isEmpty ∨
      (st.documents.filter
        (fun d => payload.file_ids.contains d.file_id)).length ≠
        payload.file_ids.length)) :
    create_quiz st payload (.error ()) qid = .error .openaiError ∧
    create_quiz st payload (.ok .notArr) qid = .error .invalidResponse ∧
    ∀ qs : List GeneratedQuestion,
      (qs.length : Int) ≠ payload.number_of_questions →
      create_quiz st payload (.ok (.arr qs)) qid = .error .invalidResponse := by
  refine ⟨?_, ?_, fun qs hqs => ?_⟩ <;>
    simp only [create_quiz, if_neg hfiles]
  rw [if_pos hqs]

/-- Two well-formed mcq entries, fewer than the three requested. -/
def twoEntries : List GeneratedQuestion :=
  [{ question_id := "q1", question := "Q1?",
     options := ["A. a", "B. b", "C. c", "D. d"], correct_answer := "A. a" },
   { question_id := "q2", question := "Q2?",
     options := ["A. a", "B. b", "C. c", "D. d"], correct_answer := "B. b" }]

/-- Witness for `create_quiz_generation_validation`, at the spec's own
scenario: requesting 3 mcq questions while generation returns 2 entries
fails with the malformed-output error (and parse failures and non-array
replies fail as amended). -/
theorem create_quiz_generation_validation_witness :
    create_quiz stOneDoc (quizReq 3) (.error ()) "qz1" =
      .error .openaiError ∧
    create_quiz stOneDoc (quizReq 3) (.ok .notArr) "qz1" =
      .error .invalidResponse ∧
    create_quiz stOneDoc (quizReq 3) (.ok (.arr twoEntries)) "qz1" =
      .error .invalidResponse :=
  have h := create_quiz_generation_validation stOneDoc (quizReq 3) "qz1"
    (by decide)
  ⟨h.1, h.2.1, h.2.2 twoEntries (by decide)⟩

/-- Rewriting every question's `correct_answer` changes neither which
questions a quiz collects nor the view `get_quiz` builds of them. -/
lemma filter_map_questionView (g : Question → String) (qid : String) :
    ∀ l : List Question,
    ((l.map (fun q => { q with correct_answer := g q })).filter
        (fun q => q.quiz_id == qid)).map
      (fun q => QuestionView.mk q.question_id q.question q.options) =
    (l.filter (fun q => q.quiz_id == qid)).map
      (fun q => QuestionView.mk q.question_id q.question q.options) := by
  intro l
  induction l with
  | nil => rfl
  | cons a l ih =>
    by_cases h : a.quiz_id == qid <;>
      simp [List.filter_cons, h, ih]

/-- **C10** (confirmed).  `get_quiz` never exposes `correct_answer`: for
any state, quiz id and any rewriting `g` of the stored correct answers,
the response (success value and error alike) is unchanged — two states
that differ only in the `correct_answer` column are indistinguishable
through `get_quiz`. -/
theorem get_quiz_independent_of_correct_answers (st : DBState)
    (qid : String) (g : Question → String) :
    get_quiz { st with questions :=
        st.questions.map (fun q => { q with correct_answer := g q }) } qid =
      get_quiz st qid := by
  unfold get_quiz
  cases st.quizzes.find? (fun qz => qz.quiz_id == qid) with
  | none => rfl
  | some quiz => simpa using filter_map_questionView g qid st.questions

/-- Ceiling of a proper fraction of naturals: `1` when the numerator is
positive, else `0`. -/
lemma ceil_frac (r b : Nat) (hrb : r < b) :
    ⌈(r : ℚ) / (b : ℚ)⌉ = if 0 < r then 1 else 0 := by
  have hb0 : (0 : ℚ) < b := by
    exact_mod_cast Nat.lt_of_le_of_lt (Nat.zero_le r) hrb
  by_cases hr : 0 < r
  · rw [if_pos hr, Int.ceil_eq_iff]
    constructor
    · push_cast
      norm_num
      exact div_pos (by exact_mod_cast hr) hb0
    · push_cast
      rw [div_le_one hb0]
      exact_mod_cast hrb.le
  · have : r = 0 := by omega
    subst this
    simp

/-- The handler's `(a // b) + (1 if a % b > 0 else 0)` computes exactly
the ceiling of `a / b` for naturals `a` and positive `b`. -/
lemma floor_div_succ_eq_ceil (a b : Nat) (hb : 0 < b) :
    ((a / b : Nat) : ℤ) + (if 0 < a % b then 1 else 0) =
      ⌈(a : ℚ) / (b : ℚ)⌉ := by
  have hb0 : (b : ℚ) ≠ 0 := by exact_mod_cast hb.ne'
  have hmod : b * (a / b) + a % b = a := Nat.div_add_mod a b
  have ha : (a : ℚ) = (b : ℚ) * ((a / b : Nat) : ℚ) + ((a % b : Nat) : ℚ) := by
    exact_mod_cast hmod.symm
  rw [ha, add_div, mul_comm, mul_div_assoc, div_self hb0, mul_one]
  rw [add_comm ((((a / b : Nat)) : ℚ))]
  rw [show (((a / b : Nat)) : ℚ) = (((a / b : Nat) : ℤ) : ℚ) from
        (Int.cast_natCast _).symm]
  rw [Int.ceil_add_int, ceil_frac _ _ (Nat.mod_lt a hb)]
  ring

/-- The quantity `a ≤ (that ceiling expression) * b`: every matched row
index is below `total_pages * limit`. -/
lemma le_pages_mul (a b : Nat) (hb : 0 < b) :
    a ≤ (a / b + (if 0 < a % b then 1 else 0)) * b := by
  have hmod : b * (a / b) + a % b = a := Nat.div_add_mod a b
  have hlt : a % b < b := Nat.mod_lt a hb
  by_cases hr : 0 < a % b
  · rw [if_pos hr]
    nlinarith
  · rw [if_neg hr]
    nlinarith

/-- The handler's `total_pages` expression, written over the integers as
`search_files` computes it, equals the ceiling of `a / limit`. -/
lemma fdiv_formula_eq_ceil (a : Nat) (limit : Int) (hl : 1 ≤ limit) :
    (a : Int).fdiv limit + (if (a : Int).fmod limit > 0 then 1 else 0) =
      ⌈(a : ℚ) / ((limit : Int) : ℚ)⌉ := by
  obtain ⟨b, rfl⟩ : ∃ b : Nat, limit = (b : Int) := ⟨limit.toNat, by omega⟩
  have hb : 0 < b := by exact_mod_cast hl
  rw [Int.fdiv_eq_ediv _ (by positivity), Int.fmod_eq_emod _ (by positivity),
      ← Int.ofNat_ediv, ← Int.ofNat_emod]
  simp only [gt_iff_lt, Nat.cast_pos]
  rw [Int.cast_natCast]
  exact floor_div_succ_eq_ceil a b hb

/-- `total_pages * limit` covers every matched row index, over ℤ. -/
lemma le_fdiv_formula_mul (a : Nat) (limit : Int) (hl : 1 ≤ limit) :
    (a : Int) ≤
      ((a : Int).fdiv limit + (if (a : Int).fmod limit > 0 then 1 else 0)) *
        limit := by
  obtain ⟨b, rfl⟩ : ∃ b : Nat, limit = (b : Int) := ⟨limit.toNat, by omega⟩
  have hb : 0 < b := by exact_mod_cast hl
  rw [Int.fdiv_eq_ediv _ (by positivity), Int.fmod_eq_emod _ (by positivity),
      ← Int.ofNat_ediv, ← Int.ofNat_emod]
  simp only [gt_iff_lt, Nat.cast_pos]
  rw [show (if 0 < a % b then (1 : Int) else 0) =
        ((if 0 < a % b then (1 : Nat) else 0) : Int) by split <;> rfl]
  exact_mod_cast le_pages_mul a b hb

/-- **C8** (confirmed).  For any valid sort mode, `page ≥ 1` and
`limit ≥ 1` (with no file-type filter), `search_files` succeeds, reports
`total_results` as the full match count, reports `total_pages` equal to
the exact ceiling of `total_results / limit`, and a page beyond
`total_pages` yields an empty result list next to that unchanged
count. -/
theorem search_files_pagination (dbRows : List String → List SearchRow)
    (q : String) (page limit : Int) (sort : String)
    (hsort : sort = "relevance" ∨ sort = "name")
    (hpage : 1 ≤ page) (hlimit : 1 ≤ limit) :
    ∃ resp, search_files dbRows q page limit sort none = .ok resp ∧
      resp.total_results = ((dbRows []).length : Int) ∧
      resp.total_pages = ⌈((dbRows []).length : ℚ) / (limit : ℚ)⌉ ∧
      (resp.total_pages < page → resp.results = []) := by
  have hoff : (0 : Int) ≤ (page - 1) * limit :=
    mul_nonneg (by omega) (by omega)
  unfold search_files
  rw [if_neg (not_not_intro hsort)]
  simp only
  rw [if_neg (by omega : ¬(limit < 0 ∨ (page - 1) * limit < 0)),
      if_neg (by omega : ¬limit = 0)]
  refine ⟨_, rfl, rfl, ?_, ?_⟩
  · exact fdiv_formula_eq_ceil (dbRows []).length limit hlimit
  · -- beyond the last page the window starts past the end
    intro hbeyond
    have htp : ((dbRows []).length : Int).fdiv limit +
        (if ((dbRows []).length : Int).fmod limit > 0 then 1 else 0) < page :=
      hbeyond
    have hwin : ((dbRows []).length : Int) ≤ (page - 1) * limit :=
      le_trans (le_fdiv_formula_mul (dbRows []).length limit hlimit)
        (mul_le_mul_of_nonneg_right (by omega) (by omega))
    have hlen : (dbRows []).length ≤ ((page - 1) * limit).toNat := by
      rw [Int.le_toNat hoff]
      exact hwin
    simp [List.drop_eq_nil_of_le hlen]

/-- Witness for `search_files_pagination`: one matched row, `limit = 2`,
`page = 3` — a page past the single total page. -/
theorem search_files_pagination_witness :
    ∃ resp, search_files
        (fun _ => [{ file_id := "file001", name := "a.txt",
                     file_type := "text/plain", relevance := 1 }])
        "seo" 3 2 "relevance" none = .ok resp ∧
      resp.total_results = ((1 : Nat) : Int) ∧
      resp.total_pages = ⌈((1 : Nat) : ℚ) / ((2 : Int) : ℚ)⌉ ∧
      (resp.total_pages < 3 → resp.results = []) := by
  have h := search_files_pagination
    (fun _ => [{ file_id := "file001", name := "a.txt",
                 file_type := "text/plain", relevance := 1 }])
    "seo" 3 2 "relevance" (Or.inl rfl) (by norm_num) (by norm_num)
  simpa using h

/-- `resolveAnswers` keeps the submitted answers, in order. -/
lemma resolveAnswers_map_fst (qs : List Question) :
    ∀ (answers : List AnswerItem) (resolved : List (AnswerItem × Question)),
    resolveAnswers qs answers = some resolved →
    resolved.map Prod.fst = answers := by
  intro answers
  induction answers with
  | nil => intro resolved h; cases h; rfl
  | cons a rest ih =>
    intro resolved h
    unfold resolveAnswers at h
    cases hf : qs.find? (fun q => q.question_id == a.question_id) with
    | none => rw [hf] at h; cases h
    | some q =>
      rw [hf] at h
      obtain ⟨r', hr', rfl⟩ := Option.map_eq_some'.mp h
      simp [ih r' hr']

/-- Every pair `resolveAnswers` produces is the `find?` result for its
answer. -/
lemma resolveAnswers_find (qs : List Question) :
    ∀ (answers : List AnswerItem) (resolved : List (AnswerItem × Question)),
    resolveAnswers qs answers = some resolved →
    ∀ p ∈ resolved,
      qs.find? (fun q => q.question_id == p.1.question_id) = some p.2 := by
  intro answers
  induction answers with
  | nil => intro resolved h p hp; cases h; cases hp
  | cons a rest ih =>
    intro resolved h p hp
    unfold resolveAnswers at h
    cases hf : qs.find? (fun q => q.question_id == a.question_id) with
    | none => rw [hf] at h; cases h
    | some q =>
      rw [hf] at h
      obtain ⟨r', hr', rfl⟩ := Option.map_eq_some'.mp h
      rcases List.mem_cons.mp hp with rfl | hmem
      · exact hf
      · exact ih r' hr' p hmem

/-- The persisted rows carry the submitted question ids and answers,
in order. -/
lemma buildSubmissions_map_proj (qid uid : String) (ids : Nat → String) :
    ∀ (i : Nat) (resolved : List (AnswerItem × Question)),
    (buildSubmissions qid uid ids i resolved).map
        (fun s => (s.question_id, s.selected_answer)) =
      resolved.map (fun p => (p.1.question_id, p.1.selected_answer)) := by
  intro i resolved
  induction resolved generalizing i with
  | nil => rfl
  | cons p rest ih =>
    obtain ⟨a, q⟩ := p
    simp [buildSubmissions, ih]

/-- Every persisted row comes from a resolved pair and carries its data
and the exact-equality flag. -/
lemma mem_buildSubmissions (qid uid : String) (ids : Nat → String) :
    ∀ (i : Nat) (resolved : List (AnswerItem × Question))
      (s : Submission), s ∈ buildSubmissions qid uid ids i resolved →
    ∃ p ∈ resolved, s.question_id = p.1.question_id ∧
      s.selected_answer = p.1.selected_answer ∧
      s.is_correct = (p.2.correct_answer == p.1.selected_answer) := by
  intro i resolved
  induction resolved generalizing i with
  | nil => intro s hs; cases hs
  | cons p rest ih =>
    obtain ⟨a, q⟩ := p
    intro s hs
    rcases List.mem_cons.mp hs with rfl | hmem
    · exact ⟨(a, q), List.mem_cons_self _ _, rfl, rfl, rfl⟩
    · obtain ⟨p', hp', hprops⟩ := ih (i + 1) s hmem
      exact ⟨p', List.mem_cons_of_mem _ hp', hprops⟩

/-- Counting correct flags among the persisted rows equals counting exact
matches among the resolved pairs. -/
lemma buildSubmissions_filter_correct (qid uid : String) (ids : Nat → String) :
    ∀ (i : Nat) (resolved : List (AnswerItem × Question)),
    ((buildSubmissions qid uid ids i resolved).filter
        (fun s => s.is_correct)).length =
      (resolved.filter
        (fun p => p.2.correct_answer == p.1.selected_answer)).length := by
  intro i resolved
  induction resolved generalizing i with
  | nil => rfl
  | cons p rest ih =>
    obtain ⟨a, q⟩ := p
    by_cases hc : q.correct_answer == a.selected_answer <;>
      simp [buildSubmissions, List.filter_cons, hc, ih]

/-- **C7** (confirmed).  Whenever a submit call succeeds, the new rows
(the suffix appended to the `quiz_submissions` table) record exactly the
submitted `(question_id, selected_answer)` pairs in order, each row's
`is_correct` flag is `true` precisely when the selected answer is equal —
as a string, character by character, hence case-sensitively — to the
`correct_answer` stored for a question of this quiz with the answer's
`question_id`, and the returned score counts exactly the rows flagged
correct.  No case-folding and no partial credit exist anywhere in the
computation. -/
theorem submit_quiz_grading_exact (st : DBState) (qid : String)
    (answers : List AnswerItem) (uid : String) (subIds : Nat → String)
    (st' : DBState) (res : SubmitResult)
    (hok : submit_quiz st qid answers uid subIds = .ok (st', res)) :
    (st'.submissions.drop st.submissions.length).map
        (fun s => (s.question_id, s.selected_answer)) =
      answers.map (fun a => (a.question_id, a.selected_answer)) ∧
    (∀ s ∈ st'.submissions.drop st.submissions.length,
      ∃ q ∈ st.questions, q.quiz_id = qid ∧ q.question_id = s.question_id ∧
        (s.is_correct = true ↔ q.correct_answer = s.selected_answer)) ∧
    res.score = ((st'.submissions.drop st.submissions.length).filter
        (fun s => s.is_correct)).length := by
  unfold submit_quiz at hok
  split at hok
  · cases hok
  · rename_i qz hfind
    simp only at hok
    split at hok
    · cases hok
    · rename_i hlen
      cases hres : resolveAnswers
          (st.questions.filter (fun q => q.quiz_id == qid &&
            (answers.map (·.question_id)).contains q.question_id))
          answers with
      | none => rw [hres] at hok; cases hok
      | some resolved =>
        rw [hres] at hok
        simp only at hok
        split at hok
        · cases hok
        · simp only [Except.ok.injEq, Prod.mk.injEq] at hok
          obtain ⟨rfl, rfl⟩ := hok
          simp only [List.drop_left]
          refine ⟨?_, ?_, ?_⟩
          · rw [buildSubmissions_map_proj, ←
              resolveAnswers_map_fst _ _ _ hres, List.map_map]
            rfl
          · intro s hs
            obtain ⟨p, hp, hsqid, hssel, hsic⟩ :=
              mem_buildSubmissions qid uid subIds 0 resolved s hs
            have hfq := resolveAnswers_find _ _ _ hres p hp
            have hmem := List.mem_of_find?_eq_some hfq
            have hpred := List.find?_some hfq
            obtain ⟨hmemq, hfilt⟩ := List.mem_filter.mp hmem
            rw [Bool.and_eq_true] at hfilt
            obtain ⟨hquiz, _⟩ := hfilt
            refine ⟨p.2, hmemq, by simpa using hquiz, ?_, ?_⟩
            · rw [hsqid]
              simpa using hpred
            · rw [hsic, hssel]
              exact beq_iff_eq
          · rw [buildSubmissions_filter_correct]

/-- A state with one quiz `"qz1"` owning two questions whose stored
correct answer is the capital letter `"A"`. -/
def stTwoQ : DBState :=
  { documents := [], quizzes := [quizRow1],
    questions :=
      [{ question_id := "qz1_q1", quiz_id := "qz1", question := "Q1?",
         options := "[\"A\", \"B\"]", correct_answer := "A" },
       { question_id := "qz1_q2", quiz_id := "qz1", question := "Q2?",
         options := "[\"A\", \"B\"]", correct_answer := "A" }],
    submissions := [] }

/-- Submitting `"A"` for the first question and lowercase `"a"` for the
second. -/
def answersAa : List AnswerItem :=
  [{ question_id := "qz1_q1", selected_answer := "A" },
   { question_id := "qz1_q2", selected_answer := "a" }]

/-- The state `submit_quiz` commits for `stTwoQ`/`answersAa`: the `"A"`
row is flagged correct, the `"a"` row is not. -/
def stTwoQAfter : DBState :=
  { stTwoQ with submissions :=
      [{ submission_id := "s0", quiz_id := "qz1", user_id := "u1",
         question_id := "qz1_q1", selected_answer := "A",
         is_correct := true },
       { submission_id := "s0", quiz_id := "qz1", user_id := "u1",
         question_id := "qz1_q2", selected_answer := "a",
         is_correct := false }] }

/-- The response for `stTwoQ`/`answersAa`: one of two correct. -/
def resAa : SubmitResult :=
  { quiz_id := "qz1", score := 1, total_questions := 2,
    percentage := pyRound2 (((1 : Nat) : ℚ) / ((2 : Nat) : ℚ) * 100) }

/-- Witness for `submit_quiz_grading_exact`, at the spec's own example:
selected `"A"` against stored `"A"` is correct, `"a"` is not. -/
theorem submit_quiz_grading_exact_witness :
    (stTwoQAfter.submissions.drop stTwoQ.submissions.length).map
        (fun s => (s.question_id, s.selected_answer)) =
      answersAa.map (fun a => (a.question_id, a.selected_answer)) ∧
    (∀ s ∈ stTwoQAfter.submissions.drop stTwoQ.submissions.length,
      ∃ q ∈ stTwoQ.questions, q.quiz_id = "qz1" ∧
        q.question_id = s.question_id ∧
        (s.is_correct = true ↔ q.correct_answer = s.selected_answer)) ∧
    resAa.score = ((stTwoQAfter.submissions.drop
        stTwoQ.submissions.length).filter (fun s => s.is_correct)).length :=
  submit_quiz_grading_exact stTwoQ "qz1" answersAa "u1"
    (fun _ => "s0") stTwoQAfter resAa (by rfl)

/-- If some submitted answer references a question id that no question of
the quiz carries, then the rows the handler's `IN`-filter resolves are
strictly fewer than the submitted answers (the resolved ids are distinct
by the primary key, are all referenced, and all avoid the foreign id). -/
lemma filter_length_lt_of_foreign (st : DBState) (qid : String)
    (answers : List AnswerItem)
    (hnodup : (st.questions.map (fun q => q.question_id)).Nodup)
    (a : AnswerItem) (ha : a ∈ answers)
    (hforeign : ∀ q ∈ st.questions,
      ¬(q.quiz_id = qid ∧ q.question_id = a.question_id)) :
    (st.questions.filter (fun q => q.quiz_id == qid &&
        (answers.map (fun x => x.question_id)).contains q.question_id)).length
      < answers.length := by
  classical
  set R : List String := answers.map (fun x => x.question_id) with hR
  set F : List Question := st.questions.filter
    (fun q => q.quiz_id == qid && R.contains q.question_id) with hF
  have hFsub : F.Sublist st.questions := List.filter_sublist _
  have hFnodup : (F.map (fun q => q.question_id)).Nodup :=
    hnodup.sublist (hFsub.map _)
  have hsubset : (F.map (fun q => q.question_id)).toFinset ⊆
      R.toFinset.erase a.question_id := by
    intro x hx
    rw [List.mem_toFinset] at hx
    obtain ⟨q, hqF, rfl⟩ := List.mem_map.mp hx
    obtain ⟨hqmem, hqpred⟩ := List.mem_filter.mp hqF
    rw [Bool.and_eq_true] at hqpred
    obtain ⟨hquiz, hcont⟩ := hqpred
    rw [Finset.mem_erase, List.mem_toFinset]
    constructor
    · intro hxa
      exact hforeign q hqmem ⟨by simpa using hquiz, hxa⟩
    · simpa using hcont
  have h1 : F.length = (F.map (fun q => q.question_id)).toFinset.card := by
    rw [List.toFinset_card_of_nodup hFnodup, List.length_map]
  have h2 : (F.map (fun q => q.question_id)).toFinset.card ≤
      (R.toFinset.erase a.question_id).card := Finset.card_le_card hsubset
  have h3 : (R.toFinset.erase a.question_id).card < R.toFinset.card :=
    Finset.card_erase_lt_of_mem
      (by rw [List.mem_toFinset, hR]; exact List.mem_map_of_mem _ ha)
  have h4 : R.toFinset.card ≤ R.length := List.toFinset_card_le R
  have h5 : R.length = answers.length := by rw [hR, List.length_map]
  omega

/-- **C9** (confirmed).  On an existing quiz, whenever some answer
references a `question_id` that belongs to no question of this quiz, or
the resolved question rows do not number exactly the submitted answers
(duplicate or unknown ids), `submit_quiz` fails with the 400
`InvalidArgument` raise ("Some questions do not belong to this quiz"),
and — the call returning no state — no Submission row is persisted. -/
theorem submit_quiz_rejects_foreign_questions (st : DBState) (qid : String)
    (answers : List AnswerItem) (uid : String) (subIds : Nat → String)
    (hq : (st.quizzes.find? (fun qz => qz.quiz_id == qid)).isSome)
    (hnodup : (st.questions.map (fun q => q.question_id)).Nodup)
    (hbad : (∃ a ∈ answers, ∀ q ∈ st.questions,
        ¬(q.quiz_id = qid ∧ q.question_id = a.question_id)) ∨
      (st.questions.filter (fun q => q.quiz_id == qid &&
          (answers.map (fun x => x.question_id)).contains
            q.question_id)).length ≠ answers.length) :
    submit_quiz st qid answers uid subIds = .error .questionsMismatch := by
  obtain ⟨qz, hfind⟩ := Option.isSome_iff_exists.mp hq
  have hlen : (st.questions.filter (fun q => q.quiz_id == qid &&
      (answers.map (fun x => x.question_id)).contains
        q.question_id)).length ≠ answers.length := by
    rcases hbad with ⟨a, ha, hforeign⟩ | hne
    · exact Nat.ne_of_lt
        (filter_length_lt_of_foreign st qid answers hnodup a ha hforeign)
    · exact hne
  unfold submit_quiz
  rw [hfind]
  simp only [if_pos hlen]

/-- A second quiz and a question that belongs to it, not to `"qz1"`. -/
def quizRow2 : Quiz :=
  { quiz_id := "qz2", name := "Other", difficulty := "easy", topic := "SEO",
    number_of_questions := 1, question_type := "mcq",
    custom_instructions := "" }

/-- Two quizzes; the only stored question belongs to `"qz2"`. -/
def stForeign : DBState :=
  { documents := [], quizzes := [quizRow1, quizRow2],
    questions := [{ question_id := "qz2_q1", quiz_id := "qz2",
                    question := "Q?", options := "[\"A\", \"B\"]",
                    correct_answer := "A" }],
    submissions := [] }

/-- Witness for `submit_quiz_rejects_foreign_questions`: submitting to
`"qz1"` an answer referencing `"qz2"`'s question fails with the 400. -/
theorem submit_quiz_rejects_foreign_questions_witness :
    submit_quiz stForeign "qz1"
      [{ question_id := "qz2_q1", selected_answer := "A" }] "u1"
      (fun _ => "s0") = .error .questionsMismatch :=
  submit_quiz_rejects_foreign_questions stForeign "qz1"
    [{ question_id := "qz2_q1", selected_answer := "A" }] "u1"
    (fun _ => "s0") (by decide) (by decide)
    (Or.inl ⟨_, List.mem_cons_self _ _, by decide⟩)

/-! ## Identifier allocation (claim C6) -/

/-- The identifier the allocator produces for numeric suffix `k`:
`"file" + zeroPad(k, 3)`. -/
def expectedFileId (k : Nat) : String := "file" ++ zfill 3 (pyStr k)

/-- Decimal digit characters are digits. -/
lemma digitChar_isDigit (d : Nat) (hd : d < 10) :
    (digitChar d).isDigit = true := by
  interval_cases d <;> decide

/-- Decimal digit characters decode to their digit. -/
lemma digitChar_toNat (d : Nat) (hd : d < 10) :
    (digitChar d).toNat = 48 + d := by
  interval_cases d <;> decide

/-- `natDigits` never produces the empty list. -/
lemma natDigits_ne_nil (n : Nat) : natDigits n ≠ [] := by
  rw [natDigits.eq_def]
  split <;> simp

/-- Every character `natDigits` produces is a digit. -/
lemma natDigits_all_digit (n : Nat) : ∀ c ∈ natDigits n, c.isDigit = true := by
  induction n using Nat.strong_induction_on with
  | _ n ih =>
    rw [natDigits.eq_def]
    split
    · rename_i h
      intro c hc
      rw [List.mem_singleton] at hc
      subst hc
      exact digitChar_isDigit n h
    · rename_i h
      intro c hc
      rcases List.mem_append.mp hc with hc | hc
      · exact ih (n / 10) (Nat.div_lt_self (by omega) (by omega)) c hc
      · rw [List.mem_singleton] at hc
        subst hc
        exact digitChar_isDigit _ (Nat.mod_lt n (by omega))

/-- Folding the decimal accumulator over `natDigits n` starting from `a`
yields `a * 10 ^ (number of digits) + n`. -/
lemma natDigits_foldl (n : Nat) : ∀ a : Nat,
    (natDigits n).foldl digitStep a = a * 10 ^ (natDigits n).length + n := by
  induction n using Nat.strong_induction_on with
  | _ n ih =>
    intro a
    rw [natDigits.eq_def]
    split
    · rename_i h
      simp [digitStep, digitChar_toNat n h]
      omega
    · rename_i h
      rw [List.foldl_append,
          ih (n / 10) (Nat.div_lt_self (by omega) (by omega)) a]
      simp only [List.foldl_cons, List.foldl_nil, digitStep,
        List.length_append, List.length_singleton,
        digitChar_toNat (n % 10) (Nat.mod_lt n (by omega))]
      rw [pow_succ]
      have : 10 * (n / 10) + n % 10 = n := by omega
      ring_nf
      omega

/-- Python round-trip: `int(str(n)) = n`. -/
lemma pyInt?_pyStr (n : Nat) : pyInt? (pyStr n) = some n := by
  unfold pyInt? pyStr
  rw [if_pos]
  · rw [natDigits_foldl n 0]
    simp
  · refine ⟨by simpa using natDigits_ne_nil n, ?_⟩
    rw [List.all_eq_true]
    exact natDigits_all_digit n

/-- The character data of a left-padded string. -/
lemma zfill_data (w : Nat) (s : String) :
    (zfill w s).data = List.replicate (w - s.length) '0' ++ s.data := by
  unfold zfill
  split
  · rename_i h
    rw [Nat.sub_eq_zero_of_le h]
    rfl
  · rfl

/-- Leading zeros do not change the accumulated value `0`. -/
lemma foldl_digitStep_replicate (k : Nat) :
    (List.replicate k '0').foldl digitStep 0 = 0 := by
  induction k with
  | zero => rfl
  | succ k ih => simpa [List.replicate_succ, digitStep] using ih

/-- Python round-trip through the pad: `int(str(n).zfill(w)) = n`. -/
lemma pyInt?_zfill_pyStr (w n : Nat) : pyInt? (zfill w (pyStr n)) = some n := by
  unfold pyInt?
  rw [if_pos]
  · rw [zfill_data, List.foldl_append, foldl_digitStep_replicate]
    congr 1
    rw [show (pyStr n).data = natDigits n from rfl, natDigits_foldl n 0]
    simp
  · constructor
    · rw [zfill_data]
      intro hnil
      rcases List.append_eq_nil.mp hnil with ⟨-, h2⟩
      exact natDigits_ne_nil n h2
    · rw [zfill_data, List.all_eq_true]
      intro c hc
      rcases List.mem_append.mp hc with hc | hc
      · rw [List.eq_of_mem_replicate hc]
        decide
      · exact natDigits_all_digit n c hc

/-- `replace("file", "")` leaves an all-digit string unchanged. -/
lemma dropFileRuns_digits : ∀ xs : List Char,
    (∀ c ∈ xs, c.isDigit = true) → dropFileRuns xs = xs := by
  intro xs
  induction xs with
  | nil => intro _; rfl
  | cons c rest ih =>
    intro h
    have hc : c ≠ 'f' := by
      intro hcf
      have := h c (List.mem_cons_self _ _)
      rw [hcf] at this
      exact absurd this (by decide)
    rw [dropFileRuns.eq_def]
    split
    · rename_i heq
      injection heq with h1 _
      exact absurd h1 hc
    · rename_i c' rest' heq
      injection heq with h1 h2
      subst h1
      subst h2
      rw [ih (fun d hd => h d (List.mem_cons_of_mem _ hd))]
    · rename_i heq
      cases heq

/-- Stripping the `"file"` prefix from an allocated id leaves the padded
digit block. -/
lemma pyReplaceFile_expectedFileId (k : Nat) :
    pyReplaceFile (expectedFileId k) = zfill 3 (pyStr k) := by
  unfold pyReplaceFile expectedFileId
  have hdata : ("file" ++ zfill 3 (pyStr k)).data =
      'f' :: 'i' :: 'l' :: 'e' :: (zfill 3 (pyStr k)).data := rfl
  rw [hdata]
  rw [show dropFileRuns ('f' :: 'i' :: 'l' :: 'e' :: (zfill 3 (pyStr k)).data)
        = dropFileRuns ((zfill 3 (pyStr k)).data) from rfl]
  rw [dropFileRuns_digits _ ?_]
  · rw [zfill_data]
    intro c hc
    rcases List.mem_append.mp hc with hc | hc
    · rw [List.eq_of_mem_replicate hc]
      decide
    · exact natDigits_all_digit k c hc

/-- Parsing back an allocated id recovers its numeric suffix. -/
lemma pyInt?_expectedFileId (k : Nat) :
    pyInt? (pyReplaceFile (expectedFileId k)) = some k := by
  rw [pyReplaceFile_expectedFileId, pyInt?_zfill_pyStr]

/-- Allocated ids with distinct suffixes are distinct. -/
lemma expectedFileId_injective : Function.Injective expectedFileId := by
  intro a b h
  have := congrArg (fun s => pyInt? (pyReplaceFile s)) h
  simp only [pyInt?_expectedFileId, Option.some.injEq] at this
  exact this

/-- Parsing a column of allocated ids recovers their suffixes. -/
lemma parseSuffixes_map_expected : ∀ v : List Nat,
    parseSuffixes (v.map expectedFileId) = some v := by
  intro v
  induction v with
  | nil => rfl
  | cons k rest ih =>
    rw [List.map_cons]
    unfold parseSuffixes
    rw [pyInt?_expectedFileId, ih]
    rfl

/-- `max` over the suffixes `1, …, n` (with Python's `default=0`) is
`n`. -/
lemma foldl_max_range (n : Nat) :
    ((List.range n).map (fun i => i + 1)).foldl max 0 = n := by
  induction n with
  | zero => rfl
  | succ n ih =>
    rw [List.range_succ, List.map_append, List.foldl_append, ih]
    simp

/-- Whenever the stored ids are exactly the allocated ids `1, …, n`, the
allocator computes `"file" + zeroPad(n + 1, 3)`. -/
lemma upload_allocate_expected (docs : List Document) (n : Nat)
    (hids : docs.map (fun d => d.file_id) =
      (List.range n).map (fun i => expectedFileId (i + 1))) :
    upload_allocate docs = some (expectedFileId (n + 1)) := by
  unfold upload_allocate
  rw [hids,
      show (List.range n).map (fun i => expectedFileId (i + 1)) =
        ((List.range n).map (fun i => i + 1)).map expectedFileId from by
          rw [List.map_map]; rfl,
      parseSuffixes_map_expected]
  show some ("file" ++ zfill 3 (pyStr
      (((List.range n).map (fun i => i + 1)).foldl max 0 + 1))) = _
  rw [foldl_max_range]
  rfl

/-- The empty initial database. -/
def emptyState : DBState :=
  { documents := [], quizzes := [], questions := [], submissions := [] }

/-- `n` sequential ingest calls starting from the empty database;
`meta i` supplies the `i`-th call's filename, content type and extracted
text. -/
def ingestSeq (meta : Nat → String × String × Option String) :
    Nat → Except Err DBState
  | 0 => .ok emptyState
  | n + 1 => do
    let st ← ingestSeq meta n
    let r ← upload_file st (meta n).1 (meta n).2.1 (meta n).2.2
    pure r.1

/-- After `n` sequential ingests of allowed file types from the empty
database, the stored ids are exactly `expectedFileId 1, …,
expectedFileId n`, in order. -/
lemma ingestSeq_ids (meta : Nat → String × String × Option String)
    (hmeta : ∀ i, allowed_types.contains (meta i).2.1 = true) :
    ∀ n, ∃ st, ingestSeq meta n = .ok st ∧
      st.documents.map (fun d => d.file_id) =
        (List.range n).map (fun i => expectedFileId (i + 1)) := by
  intro n
  induction n with
  | zero => exact ⟨emptyState, rfl, rfl⟩
  | succ n ih =>
    obtain ⟨st, hst, hids⟩ := ih
    have halloc := upload_allocate_expected st.documents n hids
    refine ⟨{ st with documents := st.documents ++
        [{ file_id := expectedFileId (n + 1), name := (meta n).1,
           file_type := (meta n).2.1,
           content := (meta n).2.2 }] }, ?_, ?_⟩
    · show (do
        let st ← ingestSeq meta n
        let r ← upload_file st (meta n).1 (meta n).2.1 (meta n).2.2
        pure r.1) = _
      rw [hst]
      show (do
        let r ← upload_file st (meta n).1 (meta n).2.1 (meta n).2.2
        pure r.1 : Except Err DBState) = _
      unfold upload_file
      rw [if_neg (not_not_intro (hmeta n)), halloc]
      rfl
    · rw [List.map_append, hids, List.range_succ, List.map_append]
      rfl

/-- `str(1)` evaluates to `"1"`. -/
lemma pyStr_one : pyStr 1 = "1" := by
  rw [pyStr, natDigits.eq_def, dif_pos (by norm_num : (1 : Nat) < 10)]
  decide

/-- The first allocated identifier. -/
lemma expectedFileId_one : expectedFileId 1 = "file001" := by
  rw [expectedFileId, pyStr_one]
  decide

/-- **C6** (confirmed).  Sequential ingestion from an empty store: every
call allocates `"file" + zeroPad(m + 1, 3)` where `m` is the maximum
numeric suffix of the stored ids (`m = 0` on the empty store, so the
first id is `"file001"`); consequently after `n` calls the stored ids
are `expectedFileId 1, …, expectedFileId n` in order — pairwise distinct
and with strictly increasing numeric suffixes — and the next allocation
is `expectedFileId (n + 1)`. -/
theorem upload_file_ids_sequential
    (meta : Nat → String × String × Option String)
    (hmeta : ∀ i, allowed_types.contains (meta i).2.1 = true) (n : Nat) :
    ∃ st, ingestSeq meta n = .ok st ∧
      st.documents.map (fun d => d.file_id) =
        (List.range n).map (fun i => expectedFileId (i + 1)) ∧
      (st.documents.map (fun d => d.file_id)).Nodup ∧
      (st.documents.map (fun d => d.file_id)).Pairwise
        (fun s t => (pyInt? (pyReplaceFile s)).getD 0 <
          (pyInt? (pyReplaceFile t)).getD 0) ∧
      upload_allocate st.documents = some (expectedFileId (n + 1)) ∧
      expectedFileId 1 = "file001" := by
  obtain ⟨st, hst, hids⟩ := ingestSeq_ids meta hmeta n
  refine ⟨st, hst, hids, ?_, ?_, upload_allocate_expected st.documents n hids,
    expectedFileId_one⟩
  · rw [hids, show (List.range n).map (fun i => expectedFileId (i + 1)) =
        ((List.range n).map (fun i => i + 1)).map expectedFileId from by
          rw [List.map_map]; rfl]
    exact ((List.nodup_range n).map (add_left_injective 1)).map
      expectedFileId_injective
  · rw [hids, List.pairwise_map]
    refine List.Pairwise.imp ?_ (List.pairwise_lt_range n)
    intro a b hab
    simp only [pyInt?_expectedFileId, Option.getD_some]
    omega

/-- Witness for `upload_file_ids_sequential`: two plain-text ingests
allocate `"file001"` then `"file002"`, and the next allocation would be
`"file003"`. -/
theorem upload_file_ids_sequential_witness :
    ∃ st, ingestSeq (fun _ => ("a.txt", "text/plain", some "hello")) 2 =
        .ok st ∧
      st.documents.map (fun d => d.file_id) =
        (List.range 2).map (fun i => expectedFileId (i + 1)) ∧
      (st.documents.map (fun d => d.file_id)).Nodup ∧
      (st.documents.map (fun d => d.file_id)).Pairwise
        (fun s t => (pyInt? (pyReplaceFile s)).getD 0 <
          (pyInt? (pyReplaceFile t)).getD 0) ∧
      upload_allocate st.documents = some (expectedFileId (2 + 1)) ∧
      expectedFileId 1 = "file001" :=
  upload_file_ids_sequential (fun _ => ("a.txt", "text/plain", some "hello"))
    (fun _ => rfl) 2

end QuizApi
